import Mathlib

/-!
Verification of the client-side caching and data-provider layer of the
HousingData-POC repository, shallowly embedded in Lean 4.

Time is modelled as wall-clock milliseconds since epoch (a natural number);
IndexedDB record storage is modelled as a list of records keyed by a string
primary key, and every asynchronous operation is modelled as a sequential
state transition, matching the single-threaded event-loop semantics of the
source. Numeric payload fields use exact rationals.
-/

namespace HousingData

/-- The dataType enum of CachedRecord in src/src/utils/indexedDBCache.ts. -/
inductive DataType where
  | marketStats
  | search
  | property
  | other
deriving DecidableEq, Repr

/-- CachedRecord from indexedDBCache.ts: key, data, timestamp, ttl,
expiresAt, dataType. The payload type is a parameter. -/
structure CachedRecord (α : Type) where
  key : String
  data : α
  timestamp : Nat
  ttl : Nat
  expiresAt : Nat
  dataType : DataType
deriving DecidableEq, Repr

/-- The IndexedDB object store: a collection of records with a string
primary key. Record order is irrelevant to every claim (IndexedDB stores
records by key); we keep a plain list. -/
structure Store (α : Type) where
  records : List (CachedRecord α)
deriving DecidableEq, Repr

/-- The empty object store. -/
def emptyStore {α : Type} : Store α := ⟨[]⟩

/-- String.startsWith of JavaScript and Lean, modelled on the underlying
character list so that concrete instances evaluate in the kernel. -/
def keyStartsWith (s pat : String) : Bool :=
  pat.data.isPrefixOf s.data

/-- IndexedDBCache.getDataType: derive the dataType from the key by
string-prefix tests, in source order. -/
def getDataType (key : String) : DataType :=
  if keyStartsWith key "market-stats:" then .marketStats
  else if keyStartsWith key "search:" then .search
  else if keyStartsWith key "property:" then .property
  else .other

/-- Primary-key lookup, as performed by objectStore.get(key). -/
def findRecord {α : Type} (s : Store α) (key : String) : Option (CachedRecord α) :=
  s.records.find? (fun r => r.key == key)

/-- objectStore.put: upsert, overwriting any existing record at the same
primary key. -/
def putRecord {α : Type} (s : Store α) (r : CachedRecord α) : Store α :=
  ⟨r :: s.records.filter (fun x => x.key != r.key)⟩

/-- objectStore.delete(key): remove the record at the key, if any. -/
def cacheRemove {α : Type} (s : Store α) (key : String) : Store α :=
  ⟨s.records.filter (fun r => r.key != key)⟩

/-- IndexedDBCache.get, success path: miss when absent; when present and
now is strictly past expiresAt, remove the stale record and miss;
otherwise hit. Returns the result together with the updated store (the
eager removal of an expired record). -/
def cacheGet {α : Type} (now : Nat) (s : Store α) (key : String) :
    Option α × Store α :=
  match findRecord s key with
  | none => (none, s)
  | some r =>
    if r.expiresAt < now then (none, cacheRemove s key)
    else (some r.data, s)

/-- IndexedDBCache.set, success path: store a record with
timestamp = now, expiresAt = now + ttl, dataType derived from the key. -/
def cacheSet {α : Type} (now : Nat) (s : Store α) (key : String) (data : α)
    (ttl : Nat) : Store α :=
  putRecord s
    { key := key, data := data, timestamp := now, ttl := ttl,
      expiresAt := now + ttl, dataType := getDataType key }

/-- IndexedDBCache.clear, success path. -/
def cacheClear {α : Type} (_s : Store α) : Store α := emptyStore

/-- IndexedDBCache.clearExpired, success path: delete every record with
expiresAt less than or equal to now (IDBKeyRange.upperBound now is
inclusive), returning the count removed. -/
def clearExpired {α : Type} (now : Nat) (s : Store α) : Nat × Store α :=
  let expired := s.records.filter (fun r => r.expiresAt ≤ now)
  (expired.length, ⟨s.records.filter (fun r => ¬ (r.expiresAt ≤ now))⟩)

/-- IndexedDBCache.getAge, success path: for a present record return
now minus its timestamp, with no expiry check and no eviction; null when
absent. -/
def getAge {α : Type} (now : Nat) (s : Store α) (key : String) : Option Nat :=
  (findRecord s key).map (fun r => now - r.timestamp)

/-- CacheStats from indexedDBCache.ts. The byType record is flattened
into four counters. -/
structure CacheStats where
  count : Nat
  keys : List String
  totalSize : Nat
  marketStatsCount : Nat
  searchCount : Nat
  propertyCount : Nat
  otherCount : Nat
deriving DecidableEq, Repr

/-- The zeroed statistics returned by getStats on a storage failure. -/
def emptyStats : CacheStats :=
  { count := 0, keys := [], totalSize := 0, marketStatsCount := 0,
    searchCount := 0, propertyCount := 0, otherCount := 0 }

/-- IndexedDBCache.getStats, success path. The payload size measure
(JSON.stringify length in the source) is an abstract parameter sz. -/
def getStats {α : Type} (sz : α → Nat) (s : Store α) : CacheStats :=
  { count := s.records.length
    keys := s.records.map (fun r => r.key)
    totalSize := (s.records.map (fun r => sz r.data)).sum
    marketStatsCount := (s.records.filter (fun r => r.dataType == .marketStats)).length
    searchCount := (s.records.filter (fun r => r.dataType == .search)).length
    propertyCount := (s.records.filter (fun r => r.dataType == .property)).length
    otherCount := (s.records.filter (fun r => r.dataType == .other)).length }

/-- Failure modes of the underlying storage: the database fails to open
(storage unavailable), or an individual IDB request fails after the
database opened. -/
inductive FailureMode where
  | ok
  | dbUnavailable
  | requestError
deriving DecidableEq, Repr

/-- Models await getDB(): throws when the database cannot be opened. -/
def getDB (fm : FailureMode) : Except Unit Unit :=
  match fm with
  | .dbUnavailable => .error ()
  | _ => .ok ()

/-- Models the promise wrapping an IDB request: request.onerror calls
reject, so the promise rejects under requestError. -/
def runRequest {β : Type} (fm : FailureMode) (result : β) : Except Unit β :=
  match fm with
  | .requestError => .error ()
  | _ => .ok result

/-- IndexedDBCache.get with its failure handling. The try/catch catches
the awaited getDB failure and returns null, but the inner promise is
returned without await, so a request-level rejection escapes the catch. -/
def idbGet {α : Type} (fm : FailureMode) (now : Nat) (s : Store α)
    (key : String) : Except Unit (Option α × Store α) :=
  match getDB fm with
  | .error _ => .ok (none, s)
  | .ok _ => runRequest fm (cacheGet now s key)

/-- IndexedDBCache.set with its failure handling: catch swallows the
getDB failure (resolving void, no write); a request rejection escapes. -/
def idbSet {α : Type} (fm : FailureMode) (now : Nat) (s : Store α)
    (key : String) (data : α) (ttl : Nat) : Except Unit (Store α) :=
  match getDB fm with
  | .error _ => .ok s
  | .ok _ => runRequest fm (cacheSet now s key data ttl)

/-- IndexedDBCache.remove with its failure handling. -/
def idbRemove {α : Type} (fm : FailureMode) (s : Store α) (key : String) :
    Except Unit (Store α) :=
  match getDB fm with
  | .error _ => .ok s
  | .ok _ => runRequest fm (cacheRemove s key)

/-- IndexedDBCache.clear with its failure handling. -/
def idbClear {α : Type} (fm : FailureMode) (s : Store α) :
    Except Unit (Store α) :=
  match getDB fm with
  | .error _ => .ok s
  | .ok _ => runRequest fm (cacheClear s)

/-- IndexedDBCache.clearExpired with its failure handling: the catch
returns count 0. -/
def idbClearExpired {α : Type} (fm : FailureMode) (now : Nat) (s : Store α) :
    Except Unit (Nat × Store α) :=
  match getDB fm with
  | .error _ => .ok (0, s)
  | .ok _ => runRequest fm (clearExpired now s)

/-- IndexedDBCache.getStats with its failure handling: the catch returns
zeroed statistics. -/
def idbGetStats {α : Type} (fm : FailureMode) (sz : α → Nat) (s : Store α) :
    Except Unit CacheStats :=
  match getDB fm with
  | .error _ => .ok emptyStats
  | .ok _ => runRequest fm (getStats sz s)

/-- IndexedDBCache.getAge with its failure handling: the catch returns
null. -/
def idbGetAge {α : Type} (fm : FailureMode) (now : Nat) (s : Store α)
    (key : String) : Except Unit (Option Nat) :=
  match getDB fm with
  | .error _ => .ok none
  | .ok _ => runRequest fm (getAge now s key)

/-- The nested saleData block of MarketStats
(src/services/providers/types.ts), restricted to the fields the verified
code paths read or write. Absent optional fields are none; numeric fields
are exact rationals. -/
structure SaleData where
  lastUpdatedDate : Option String
  averagePrice : Option ℚ
  medianPrice : Option ℚ
  minPrice : Option ℚ
  maxPrice : Option ℚ
deriving DecidableEq, Repr

/-- MarketStats from src/services/providers/types.ts: optional identity
fields, legacy top-level price fields, the preferred nested saleData
block, and the historical price series. -/
structure MarketStats where
  id : Option String
  city : Option String
  state : Option String
  zipCode : Option String
  averagePrice : Option ℚ
  medianPrice : Option ℚ
  percentChange : Option ℚ
  saleData : Option SaleData
  historicalPrices : Option (List (String × ℚ))
deriving DecidableEq, Repr

/-- JavaScript truthiness of an optional numeric field: undefined and 0
are falsy, every other rational is truthy. -/
def truthy (o : Option ℚ) : Bool :=
  match o with
  | none => false
  | some x => x != 0

/-- The hasValidData check of BaseProvider.getMarketStats: at least one
of saleData.averagePrice, saleData.medianPrice, top-level averagePrice,
top-level medianPrice is truthy. -/
def hasValidData (st : MarketStats) : Bool :=
  truthy (st.saleData.bind SaleData.averagePrice) ||
  truthy (st.saleData.bind SaleData.medianPrice) ||
  truthy st.averagePrice ||
  truthy st.medianPrice

/-- CACHE_TTL.MARKET_STATS from indexedDBCache.ts: 24 hours in ms. -/
def CACHE_TTL_MARKET_STATS : Nat := 24 * 60 * 60 * 1000

/-- BaseProvider.getMarketStatsCacheKey: provider id, operation kind,
location. -/
def marketStatsCacheKey (providerId location : String) : String :=
  providerId ++ ":market-stats:" ++ location

/-- BaseProvider.getMarketStats (base.provider.ts), sequential model.
The concrete fetchMarketStatsFromAPI result is the parameter fetched
(the fetch-throws path propagates the exception unchanged and is not
modelled here). Unless forceRefresh, the cache is read first and a hit
returns immediately; on miss the fetched result is cached only when
hasValidData holds, and is returned to the caller either way. -/
def baseGetMarketStats (providerId : String) (now : Nat)
    (s : Store MarketStats) (location : String) (forceRefresh : Bool)
    (fetched : Option MarketStats) : Option MarketStats × Store MarketStats :=
  let cacheKey := marketStatsCacheKey providerId location
  let afterRead : Option MarketStats × Store MarketStats :=
    if forceRefresh then (none, s) else cacheGet now s cacheKey
  match afterRead with
  | (some cached, s₁) => (some cached, s₁)
  | (none, s₁) =>
    match fetched with
    | some st =>
      if hasValidData st then
        (some st, cacheSet now s₁ cacheKey st CACHE_TTL_MARKET_STATS)
      else (some st, s₁)
    | none => (none, s₁)

/-- Math.round of JavaScript on a rational: floor of q + 1/2. -/
def jsRound (q : ℚ) : ℤ := ⌊q + 1 / 2⌋

/-- The backward scan of parseZillowZHVI: given the date columns of a row
newest first, find the first cell holding a numeric value, returning the
value, its column date, and the remaining older columns. A cell is none
when empty or not parseable as a number (parseFloat gave NaN). -/
def findFirstValWithDate :
    List (String × Option ℚ) → Option (ℚ × String × List (String × Option ℚ))
  | [] => none
  | (d, some x) :: rest => some (x, d, rest)
  | (_, none) :: rest => findFirstValWithDate rest

/-- Continuation of the backward scan: the first numeric value among the
remaining older columns, if any. -/
def findFirstVal : List (String × Option ℚ) → Option ℚ
  | [] => none
  | (_, some x) :: _ => some x
  | (_, none) :: rest => findFirstVal rest

/-- The percent-change computation of parseZillowZHVI: zero unless a
previous value exists and is positive. -/
def zhviPercentChange (cur : ℚ) (prev : Option ℚ) : ℚ :=
  match prev with
  | some p => if 0 < p then (cur - p) / p * 100 else 0
  | none => 0

/-- One row of parseZillowZHVI (src CSV parser, wide format). dateCols
are the date-column cells of the row in ascending date order, as produced
by the sort in the source; each cell is the parseFloat result (none for
an empty or unparsable cell). Returns none when the row is skipped
(missing city or state, or no numeric value in any date column). Date
column headers match YYYY-MM-DD and are therefore nonempty, so the
lastUpdatedDate fallback to the current ISO time never fires for a
non-skipped row. -/
def parseZHVIRow (regionID city state : String)
    (dateCols : List (String × Option ℚ)) : Option MarketStats :=
  if city = "" ∨ state = "" then none
  else
    match findFirstValWithDate dateCols.reverse with
    | none => none
    | some (cur, lastDate, older) =>
      let prev := findFirstVal older
      let percentChange := zhviPercentChange cur prev
      let recentValues := (dateCols.reverse.take 12).filterMap Prod.snd
      let minPrice : ℚ :=
        match recentValues with
        | [] => cur
        | v :: vs => vs.foldl min v
      let maxPrice : ℚ :=
        match recentValues with
        | [] => cur
        | v :: vs => vs.foldl max v
      let avgPrice : ℚ :=
        match recentValues with
        | [] => cur
        | v :: vs => ((v :: vs).foldl (· + ·) 0) / (v :: vs).length
      let historicalPrices := dateCols.filterMap (fun c =>
        match c.2 with
        | some x => if 0 < x then some (c.1, ((jsRound x : ℤ) : ℚ)) else none
        | none => none)
      some
        { id := some (if regionID = "" then city ++ "-" ++ state else regionID)
          city := some city
          state := some state
          zipCode := none
          averagePrice := none
          medianPrice := none
          percentChange := some percentChange
          saleData := some
            { lastUpdatedDate := some lastDate
              medianPrice := some ((jsRound cur : ℤ) : ℚ)
              averagePrice := some ((jsRound avgPrice : ℤ) : ℚ)
              minPrice := some ((jsRound minPrice : ℤ) : ℚ)
              maxPrice := some ((jsRound maxPrice : ℤ) : ℚ) }
          historicalPrices := some historicalPrices }

/-- The changeDirection classification of MarketPriceData. -/
inductive Direction where
  | up
  | down
  | neutral
deriving DecidableEq, Repr

/-- MarketPriceData (src/types), restricted to the fields produced by
transformToMarketPriceData; historicalData is always the empty list
there. -/
structure MarketPriceData where
  marketId : String
  marketName : String
  currentPrice : ℚ
  priceChange : ℚ
  changeDirection : Direction
  lastUpdated : Option String
deriving DecidableEq, Repr

/-- JavaScript a || b on an optional numeric and a fallback: the value
when truthy, else the fallback. -/
def orVal (a : Option ℚ) (b : ℚ) : ℚ :=
  match a with
  | some x => if x = 0 then b else x
  | none => b

/-- transformToMarketPriceData (src/src/utils/dataTransform.ts). The
saleData fallback stats.saleData || stats reads the legacy top-level
fields, which carry no minPrice, maxPrice or lastUpdatedDate. Rational
division is exact; the source divides by currentPrice only in the
min/max fallback estimate. -/
def transformToMarketPriceData (marketId marketName : String)
    (stats : MarketStats) : MarketPriceData :=
  let saleDataV : SaleData :=
    match stats.saleData with
    | some sd => sd
    | none =>
      { lastUpdatedDate := none, averagePrice := stats.averagePrice,
        medianPrice := stats.medianPrice, minPrice := none, maxPrice := none }
  let currentPrice : ℚ := orVal saleDataV.medianPrice (orVal saleDataV.averagePrice 0)
  let priceChange0 : ℚ := orVal stats.percentChange 0
  let priceChange1 : ℚ :=
    if priceChange0 = 0 ∧ truthy saleDataV.minPrice ∧ truthy saleDataV.maxPrice then
      (saleDataV.maxPrice.getD 0 - saleDataV.minPrice.getD 0) / currentPrice * 100
    else priceChange0
  let priceChange2 : ℚ := if priceChange1 = 0 then 35 / 10 else priceChange1
  { marketId := marketId
    marketName := marketName
    currentPrice := currentPrice
    priceChange := |priceChange2|
    changeDirection :=
      if 0 < priceChange2 then .up else if priceChange2 < 0 then .down else .neutral
    lastUpdated := saleDataV.lastUpdatedDate }

/-- validateMarketData (dataTransform.ts). The direction membership test
is total on the Direction type. -/
def validateMarketData (d : MarketPriceData) : Bool :=
  d.marketId != "" && d.marketName != "" && decide (0 < d.currentPrice) &&
  decide (d.currentPrice < 100000000) && decide (|d.priceChange| < 100) &&
  (d.changeDirection == .up || d.changeDirection == .down || d.changeDirection == .neutral)

/-- The provider variants the factory can construct. -/
inductive ProviderKind where
  | mock
  | zillowMetrics
  | csv
deriving DecidableEq, Repr

/-- createProvider from the provider factory, together with the warnings
it logs. Dispatch on the resolved provider id: zillow-metrics constructs
the Zillow provider, falling back to Mock with a warning when it is not
configured; rentcast is not yet implemented and falls back to Mock with a
warning; csv constructs the CSV provider (warning only when it is not
configured); mock and every unknown id reach the default branch and
construct the Mock provider. -/
def createProvider (providerType : String) (zillowConfigured csvConfigured : Bool) :
    ProviderKind × List String :=
  if providerType = "zillow-metrics" then
    if zillowConfigured then (.zillowMetrics, [])
    else (.mock, ["Zillow Metrics not configured, falling back to Mock provider"])
  else if providerType = "rentcast" then
    (.mock, ["RentCast provider not yet migrated, falling back to Mock provider"])
  else if providerType = "csv" then
    (.csv, if csvConfigured then [] else ["CSV provider not configured"])
  else (.mock, [])

/-- The recent-values collection as the C7 claim words it: up to the last
12 non-empty numeric values of the backward scan over the date columns,
with empty columns skipped rather than counted toward the 12. Kept only
to compare against the collection the code actually performs. -/
def claimedRecentValues (dateCols : List (String × Option ℚ)) : List ℚ :=
  (dateCols.reverse.filterMap Prod.snd).take 12

/-! Helper lemmas about the store operations. -/

theorem findRecord_cacheSet_self {α : Type} (now : Nat) (s : Store α) (k : String)
    (v : α) (ttl : Nat) :
    findRecord (cacheSet now s k v ttl) k =
      some { key := k, data := v, timestamp := now, ttl := ttl,
             expiresAt := now + ttl, dataType := getDataType k } := by
  simp [findRecord, cacheSet, putRecord, List.find?]

theorem key_not_mem_filtered {α : Type} (l : List (CachedRecord α)) (k : String) :
    k ∉ (l.filter (fun r => r.key != k)).map CachedRecord.key := by
  intro h
  simp only [List.mem_map, List.mem_filter, bne_iff_ne, ne_eq] at h
  obtain ⟨r, ⟨_, hne⟩, hkey⟩ := h
  exact hne hkey

/-! Claims -/

/-- C1 counterexample: the claim says a get performed at any time greater
than or equal to T after the set returns miss, but the code misses only
strictly after expiresAt (now greater than record.expiresAt). With ttl
T = 5 set at time 0, a get at time exactly 5 still returns the value. -/
theorem C1_expiry_boundary_counterexample :
    (0 : Nat) < 5 ∧ (5 : Nat) ≥ 5 ∧
      (cacheGet (0 + 5) (cacheSet 0 (emptyStore (α := Nat)) "k" 1 5) "k").1 = some 1 := by
  decide

/-- C1 (amended): after set(k, v, T) at time t0, a get(k) at elapsed time
d returns v whenever d is at most T, and returns miss whenever d is
strictly greater than T. -/
theorem C1_expiry_amended {α : Type} (k : String) (v : α) (T t0 d : Nat)
    (s : Store α) (_hT : 0 < T) :
    (d ≤ T → (cacheGet (t0 + d) (cacheSet t0 s k v T) k).1 = some v) ∧
    (T < d → (cacheGet (t0 + d) (cacheSet t0 s k v T) k).1 = none) := by
  have hfind := findRecord_cacheSet_self t0 s k v T
  constructor
  · intro hd
    simp [cacheGet, hfind, Nat.not_lt.mpr (Nat.add_le_add_left hd t0)]
  · intro hd
    simp [cacheGet, hfind, Nat.add_lt_add_left hd t0]

/-- C1 witness: T = 5, set at 0, get at elapsed 3 hits with the stored
value. -/
theorem C1_expiry_witness :
    (0 : Nat) < 5 ∧
      ((3 ≤ 5 → (cacheGet (0 + 3) (cacheSet 0 (emptyStore (α := Nat)) "k" 1 5) "k").1 = some 1) ∧
       (5 < 3 → (cacheGet (0 + 3) (cacheSet 0 (emptyStore (α := Nat)) "k" 1 5) "k").1 = none)) :=
  ⟨by decide, C1_expiry_amended "k" 1 5 0 3 emptyStore (by decide)⟩

/-- C2: a get that finds a matching but expired record returns miss and
eagerly deletes the record, so a stats call on the resulting store does
not list the key. -/
theorem C2_eager_eviction {α : Type} (sz : α → Nat) (now : Nat) (s : Store α)
    (k : String) (r : CachedRecord α)
    (hfind : findRecord s k = some r) (hexp : r.expiresAt < now) :
    (cacheGet now s k).1 = none ∧
      k ∉ (getStats sz (cacheGet now s k).2).keys := by
  have hget : cacheGet now s k = (none, cacheRemove s k) := by
    simp [cacheGet, hfind, hexp]
  refine ⟨by simp [hget], ?_⟩
  rw [hget]
  simp only [getStats, cacheRemove]
  exact key_not_mem_filtered s.records k

/-- C2 witness: a record with ttl 5 stored at time 0, read at time 10:
the read misses and the key is absent from the subsequent stats. -/
theorem C2_eager_eviction_witness :
    findRecord (cacheSet 0 (emptyStore (α := Nat)) "k" 1 5) "k" =
      some { key := "k", data := 1, timestamp := 0, ttl := 5, expiresAt := 5,
             dataType := DataType.other } ∧
    (5 : Nat) < 10 ∧
    ((cacheGet 10 (cacheSet 0 (emptyStore (α := Nat)) "k" 1 5) "k").1 = none ∧
      "k" ∉ (getStats (fun _ => 0)
        (cacheGet 10 (cacheSet 0 (emptyStore (α := Nat)) "k" 1 5) "k").2).keys) :=
  ⟨by decide, by decide,
    C2_eager_eviction (fun _ => 0) 10 (cacheSet 0 emptyStore "k" 1 5) "k"
      { key := "k", data := 1, timestamp := 0, ttl := 5, expiresAt := 5,
        dataType := DataType.other } (by decide) (by decide)⟩

/-- C3 counterexample: when an individual storage request fails after the
database opened (requestError), get and set reject instead of resolving
to a no-op miss/ack — the promise produced by the request is returned
from inside the try block without being awaited, so its rejection escapes
the catch. -/
theorem C3_request_failure_counterexample :
    idbGet (α := Nat) FailureMode.requestError 0 emptyStore "k" = Except.error () ∧
    idbSet (α := Nat) FailureMode.requestError 0 emptyStore "k" 1 5 = Except.error () := by
  constructor <;> rfl

/-- C3 (amended): when the underlying storage is unavailable (the
database cannot be opened), every cache-store operation resolves to its
no-op miss/ack result; but when an individual storage request fails after
the database opened, the returned promise rejects. -/
theorem C3_storage_unavailable_amended {α : Type} (now t : Nat) (s : Store α)
    (k : String) (v : α) (ttl : Nat) (sz : α → Nat) :
    idbGet FailureMode.dbUnavailable now s k = Except.ok (none, s) ∧
    idbSet FailureMode.dbUnavailable now s k v ttl = Except.ok s ∧
    idbRemove FailureMode.dbUnavailable s k = Except.ok s ∧
    idbClear FailureMode.dbUnavailable s = Except.ok s ∧
    idbClearExpired FailureMode.dbUnavailable t s = Except.ok (0, s) ∧
    idbGetStats FailureMode.dbUnavailable sz s = Except.ok emptyStats ∧
    idbGetAge FailureMode.dbUnavailable now s k = Except.ok none ∧
    idbGet FailureMode.requestError now s k = Except.error () ∧
    idbSet FailureMode.requestError now s k v ttl = Except.error () ∧
    idbRemove FailureMode.requestError s k = Except.error () ∧
    idbClear FailureMode.requestError s = Except.error () ∧
    idbClearExpired FailureMode.requestError t s = Except.error () ∧
    idbGetStats FailureMode.requestError sz s = Except.error () ∧
    idbGetAge FailureMode.requestError now s k = Except.error () := by
  repeat first | constructor | rfl

/-- C4: the Base Provider market-stats key has the composite form
provider-id, operation, location, which does not start with the literal
prefix that getDataType tests, so the record written at that key is
categorized other, not market-stats, and stats counts it under other.
The claim (and the repository documentation of the key scheme) says it
should be counted as market-stats. -/
theorem C4_composite_key_categorized_other :
    getDataType "csv:market-stats:detroit, mi" = DataType.other ∧
    (getStats (fun _ => 0)
        (cacheSet 0 (emptyStore (α := Nat)) "csv:market-stats:detroit, mi" 1 5)).marketStatsCount = 0 ∧
    (getStats (fun _ => 0)
        (cacheSet 0 (emptyStore (α := Nat)) "csv:market-stats:detroit, mi" 1 5)).otherCount = 1 := by
  decide

/-- C10: for a key whose record is physically present, getAge returns the
elapsed time since the record was stored, with no expiry check and no
eviction; in particular for an expired record it returns a duration even
though get would return miss. -/
theorem C10_getAge_ignores_expiry {α : Type} (now : Nat) (s : Store α)
    (k : String) (r : CachedRecord α) (hfind : findRecord s k = some r) :
    getAge now s k = some (now - r.timestamp) ∧
    (r.expiresAt < now → (cacheGet now s k).1 = none) := by
  refine ⟨by simp [getAge, hfind], ?_⟩
  intro hexp
  simp [cacheGet, hfind, hexp]

/-- C10 witness: a record stored at time 0 with ttl 5, queried at time
10: getAge returns 10 although get misses. -/
theorem C10_getAge_ignores_expiry_witness :
    findRecord (cacheSet 0 (emptyStore (α := Nat)) "k" 1 5) "k" =
      some { key := "k", data := 1, timestamp := 0, ttl := 5, expiresAt := 5,
             dataType := DataType.other } ∧
    (getAge 10 (cacheSet 0 (emptyStore (α := Nat)) "k" 1 5) "k" = some (10 - 0) ∧
      ((5 : Nat) < 10 → (cacheGet 10 (cacheSet 0 (emptyStore (α := Nat)) "k" 1 5) "k").1 = none)) :=
  ⟨by decide,
    C10_getAge_ignores_expiry 10 (cacheSet 0 emptyStore "k" 1 5) "k"
      { key := "k", data := 1, timestamp := 0, ttl := 5, expiresAt := 5,
        dataType := DataType.other } (by decide)⟩

/-- C5: a fetched market-stats result with no truthy price field is
returned to the caller but never written to the cache, so with nothing
previously stored at the key, no later cache get for that key can return
anything. -/
theorem C5_no_poisoning (pid loc : String) (now : Nat) (s : Store MarketStats)
    (force : Bool) (st : MarketStats)
    (hinv : hasValidData st = false)
    (habsent : findRecord s (marketStatsCacheKey pid loc) = none) :
    (baseGetMarketStats pid now s loc force (some st)).1 = some st ∧
    ∀ t, (cacheGet t (baseGetMarketStats pid now s loc force (some st)).2
            (marketStatsCacheKey pid loc)).1 = none := by
  have hread : (if force then ((none : Option MarketStats), s)
      else cacheGet now s (marketStatsCacheKey pid loc)) = (none, s) := by
    cases force <;> simp [cacheGet, habsent]
  have hrun : baseGetMarketStats pid now s loc force (some st) = (some st, s) := by
    simp only [baseGetMarketStats, hread, hinv, Bool.false_eq_true, if_false]
  refine ⟨by simp [hrun], fun t => ?_⟩
  simp [hrun, cacheGet, habsent]

/-- C5 witness: an all-empty fetched result on an empty cache is returned
but a later get at the derived key still misses. -/
theorem C5_no_poisoning_witness :
    hasValidData
      { id := some "x", city := some "Austin", state := some "TX", zipCode := none,
        averagePrice := none, medianPrice := none, percentChange := none,
        saleData := none, historicalPrices := none } = false ∧
    ((baseGetMarketStats "csv" 0 emptyStore "Austin, TX" false
        (some { id := some "x", city := some "Austin", state := some "TX", zipCode := none,
                averagePrice := none, medianPrice := none, percentChange := none,
                saleData := none, historicalPrices := none })).1 =
      some { id := some "x", city := some "Austin", state := some "TX", zipCode := none,
             averagePrice := none, medianPrice := none, percentChange := none,
             saleData := none, historicalPrices := none } ∧
     (cacheGet 99 (baseGetMarketStats "csv" 0 emptyStore "Austin, TX" false
        (some { id := some "x", city := some "Austin", state := some "TX", zipCode := none,
                averagePrice := none, medianPrice := none, percentChange := none,
                saleData := none, historicalPrices := none })).2
        (marketStatsCacheKey "csv" "Austin, TX")).1 = none) :=
  ⟨rfl,
    (C5_no_poisoning "csv" "Austin, TX" 0 emptyStore false
      { id := some "x", city := some "Austin", state := some "TX", zipCode := none,
        averagePrice := none, medianPrice := none, percentChange := none,
        saleData := none, historicalPrices := none } rfl rfl).1,
    (C5_no_poisoning "csv" "Austin, TX" 0 emptyStore false
      { id := some "x", city := some "Austin", state := some "TX", zipCode := none,
        averagePrice := none, medianPrice := none, percentChange := none,
        saleData := none, historicalPrices := none } rfl rfl).2 99⟩

theorem findFirstValWithDate_append_none (l r : List (String × Option ℚ))
    (h : ∀ e ∈ l, e.2 = none) :
    findFirstValWithDate (l ++ r) = findFirstValWithDate r := by
  induction l with
  | nil => rfl
  | cons e tl ih =>
    obtain ⟨d, v⟩ := e
    have hv : v = none := h (d, v) (List.mem_cons_self _ _)
    subst hv
    simpa [findFirstValWithDate] using ih (fun e he => h e (List.mem_cons_of_mem _ he))

theorem findFirstVal_append_none (l r : List (String × Option ℚ))
    (h : ∀ e ∈ l, e.2 = none) :
    findFirstVal (l ++ r) = findFirstVal r := by
  induction l with
  | nil => rfl
  | cons e tl ih =>
    obtain ⟨d, v⟩ := e
    have hv : v = none := h (d, v) (List.mem_cons_self _ _)
    subst hv
    simpa [findFirstVal] using ih (fun e he => h e (List.mem_cons_of_mem _ he))

/-- C6: in a wide-format row whose date columns (ascending by date) end
in a value c at date d1 followed only by empty cells, with the nearest
earlier value p separated from c only by empty cells, the parsed market
has medianPrice the rounded c, lastUpdatedDate d1, and percentChange
computed as (c - p) / p * 100 when p is positive and 0 otherwise. -/
theorem C6_wide_scan (id city state : String) (hc : city ≠ "") (hs : state ≠ "")
    (xs ys zs : List (String × Option ℚ)) (d2 d1 : String) (p c : ℚ)
    (hys : ∀ e ∈ ys, e.2 = none) (hzs : ∀ e ∈ zs, e.2 = none) :
    (((parseZHVIRow id city state (xs ++ (d2, some p) :: (ys ++ (d1, some c) :: zs))).bind
        MarketStats.saleData).bind SaleData.medianPrice = some ((jsRound c : ℤ) : ℚ)) ∧
    (((parseZHVIRow id city state (xs ++ (d2, some p) :: (ys ++ (d1, some c) :: zs))).bind
        MarketStats.saleData).bind SaleData.lastUpdatedDate = some d1) ∧
    ((parseZHVIRow id city state (xs ++ (d2, some p) :: (ys ++ (d1, some c) :: zs))).bind
        MarketStats.percentChange = some (if 0 < p then (c - p) / p * 100 else 0)) := by
  have h1 : findFirstValWithDate
      (zs.reverse ++ ((d1, some c) :: (ys.reverse ++ ((d2, some p) :: xs.reverse)))) =
      some (c, d1, ys.reverse ++ ((d2, some p) :: xs.reverse)) := by
    rw [findFirstValWithDate_append_none _ _
      (fun e he => hzs e (List.mem_reverse.mp he))]
    rfl
  have h2 : findFirstVal (ys.reverse ++ ((d2, some p) :: xs.reverse)) = some p := by
    rw [findFirstVal_append_none _ _ (fun e he => hys e (List.mem_reverse.mp he))]
    rfl
  simp [parseZHVIRow, hc, hs, h1, h2, zhviPercentChange]

/-- C6 witness: the concrete example of the claim, with date columns
2024-01-01 holding 300000, 2024-02-01 empty, 2024-03-01 holding 310000:
medianPrice 310000 from 2024-03-01, and percentChange exactly 10 / 3. -/
theorem C6_wide_scan_witness :
    "Detroit" ≠ "" ∧
    ((((parseZHVIRow "R1" "Detroit" "MI"
        [("2024-01-01", some 300000), ("2024-02-01", none), ("2024-03-01", some 310000)]).bind
        MarketStats.saleData).bind SaleData.medianPrice = some 310000) ∧
     (((parseZHVIRow "R1" "Detroit" "MI"
        [("2024-01-01", some 300000), ("2024-02-01", none), ("2024-03-01", some 310000)]).bind
        MarketStats.saleData).bind SaleData.lastUpdatedDate = some "2024-03-01") ∧
     ((parseZHVIRow "R1" "Detroit" "MI"
        [("2024-01-01", some 300000), ("2024-02-01", none), ("2024-03-01", some 310000)]).bind
        MarketStats.percentChange = some (10 / 3))) := by
  have h := C6_wide_scan "R1" "Detroit" "MI" (by decide) (by decide)
    [] [("2024-02-01", none)] [] "2024-01-01" "2024-03-01" 300000 310000
    (by simp) (by simp)
  simp only [List.nil_append, List.cons_append] at h
  refine ⟨by decide, ?_, ?_, ?_⟩
  · rw [h.1]
    norm_num [jsRound]
  · exact h.2.1
  · rw [h.2.2]
    norm_num

theorem jsRound_int (n : ℤ) : jsRound ((n : ℚ)) = n := by
  unfold jsRound
  rw [Int.floor_eq_iff]
  constructor <;> norm_num

theorem foldl_min_eq_elim (v : ℚ) (vs : List ℚ) :
    List.foldl min v vs = vs.min?.elim v (min v) := by
  have h1 : (v :: vs).min? = some (List.foldl min v vs) := rfl
  have h2 : (v :: vs).min? = some (vs.min?.elim v (min v)) := List.min?_cons
  exact Option.some.inj (h1.symm.trans h2)

theorem foldl_max_eq_elim (v : ℚ) (vs : List ℚ) :
    List.foldl max v vs = vs.max?.elim v (max v) := by
  have h1 : (v :: vs).max? = some (List.foldl max v vs) := rfl
  have h2 : (v :: vs).max? = some (vs.max?.elim v (max v)) := List.max?_cons
  exact Option.some.inj (h1.symm.trans h2)

/-- C7 counterexample: a row with thirteen date columns where only the
two oldest hold values (100 then 200). The code windows over the last 12
columns, which contain only the value 200, so minPrice is 200; the claim
collects the last 12 non-empty values, 200 and 100, whose minimum is
100. -/
theorem C7_recent_window_counterexample :
    (((parseZHVIRow "R1" "A" "B"
        [("d01", some 100), ("d02", some 200), ("d03", none), ("d04", none),
         ("d05", none), ("d06", none), ("d07", none), ("d08", none),
         ("d09", none), ("d10", none), ("d11", none), ("d12", none),
         ("d13", none)]).bind MarketStats.saleData).bind SaleData.minPrice =
      some 200) ∧
    (claimedRecentValues
        [("d01", some 100), ("d02", some 200), ("d03", none), ("d04", none),
         ("d05", none), ("d06", none), ("d07", none), ("d08", none),
         ("d09", none), ("d10", none), ("d11", none), ("d12", none),
         ("d13", none)]).min? = some 100 ∧
    (200 : ℚ) ≠ 100 := by
  have e200 : jsRound ((200 : ℚ)) = (200 : ℤ) := by
    simpa using jsRound_int 200
  refine ⟨?_, ?_, by norm_num⟩
  · simp [parseZHVIRow, findFirstValWithDate, e200]
  · have hl : claimedRecentValues
        [("d01", some 100), ("d02", some 200), ("d03", none), ("d04", none),
         ("d05", none), ("d06", none), ("d07", none), ("d08", none),
         ("d09", none), ("d10", none), ("d11", none), ("d12", none),
         ("d13", none)] = [200, 100] := rfl
    rw [hl]
    norm_num [List.min?_cons, min_def]

/-- C7 (amended): minPrice, maxPrice and avgPrice are computed over the
non-empty numeric values among the last 12 date columns (empty columns
count toward the window of 12), and when none of the last 12 columns
holds a numeric value all three fall back to the current value. -/
theorem C7_recent_window_amended (id city state : String) (hc : city ≠ "")
    (hs : state ≠ "") (cells older : List (String × Option ℚ)) (c : ℚ) (d : String)
    (hscan : findFirstValWithDate cells.reverse = some (c, d, older)) :
    (((parseZHVIRow id city state cells).bind MarketStats.saleData).bind SaleData.minPrice =
      some ((jsRound ((((cells.reverse.take 12).filterMap Prod.snd).min?).getD c) : ℤ) : ℚ)) ∧
    (((parseZHVIRow id city state cells).bind MarketStats.saleData).bind SaleData.maxPrice =
      some ((jsRound ((((cells.reverse.take 12).filterMap Prod.snd).max?).getD c) : ℤ) : ℚ)) ∧
    (((parseZHVIRow id city state cells).bind MarketStats.saleData).bind SaleData.averagePrice =
      some ((jsRound (if ((cells.reverse.take 12).filterMap Prod.snd) = [] then c
          else ((cells.reverse.take 12).filterMap Prod.snd).sum /
            ((cells.reverse.take 12).filterMap Prod.snd).length) : ℤ) : ℚ)) := by
  rcases hvals : (cells.reverse.take 12).filterMap Prod.snd with _ | ⟨v, vs⟩
  · simp [parseZHVIRow, hc, hs, hscan, hvals]
  · simp [parseZHVIRow, hc, hs, hscan, hvals, List.sum_eq_foldl,
      foldl_min_eq_elim, foldl_max_eq_elim]

/-- C7 witness: four date columns, the last empty, values 10, 40, 22:
the window holds all three values, so minPrice 10, maxPrice 40 and
avgPrice 24. -/
theorem C7_recent_window_witness :
    "A" ≠ "" ∧
    ((((parseZHVIRow "R1" "A" "B"
        [("d01", some 10), ("d02", some 40), ("d03", some 22), ("d04", none)]).bind
        MarketStats.saleData).bind SaleData.minPrice = some 10) ∧
     (((parseZHVIRow "R1" "A" "B"
        [("d01", some 10), ("d02", some 40), ("d03", some 22), ("d04", none)]).bind
        MarketStats.saleData).bind SaleData.maxPrice = some 40) ∧
     (((parseZHVIRow "R1" "A" "B"
        [("d01", some 10), ("d02", some 40), ("d03", some 22), ("d04", none)]).bind
        MarketStats.saleData).bind SaleData.averagePrice = some 24)) := by
  have h := C7_recent_window_amended "R1" "A" "B" (by decide) (by decide)
    [("d01", some 10), ("d02", some 40), ("d03", some 22), ("d04", none)]
    [("d02", some 40), ("d01", some 10)] 22 "d03" (by decide)
  have e10 : jsRound ((10 : ℚ)) = (10 : ℤ) := by simpa using jsRound_int 10
  have e40 : jsRound ((40 : ℚ)) = (40 : ℤ) := by simpa using jsRound_int 40
  have e24 : jsRound ((24 : ℚ)) = (24 : ℤ) := by simpa using jsRound_int 24
  refine ⟨by decide, ?_, ?_, ?_⟩
  · rw [h.1]
    norm_num [show ((List.filterMap Prod.snd
        [(("d03":String), some (22:ℚ)), ("d02", some 40),
         ("d01", some 10)]).min?.getD 22) = min (min 22 40) 10 from rfl,
      min_def, e10]
  · rw [h.2.1]
    norm_num [show ((List.filterMap Prod.snd
        [(("d03":String), some (22:ℚ)), ("d02", some 40),
         ("d01", some 10)]).max?.getD 22) = max (max 22 40) 10 from rfl,
      max_def, e40]
  · rw [h.2.2]
    norm_num [show (List.filterMap Prod.snd
        [(("d03":String), some (22:ℚ)), ("d02", some 40),
         ("d01", some 10)]) = [22, 40, 10] from rfl, e24, List.cons_ne_nil]

theorem directionOf_ne_neutral (q : ℚ) (hq : q ≠ 0) :
    (if 0 < q then Direction.up else if q < 0 then Direction.down
      else Direction.neutral) ≠ Direction.neutral := by
  rcases lt_trichotomy 0 q with h | h | h
  · simp [h]
  · exact absurd h.symm hq
  · simp [lt_asymm h, h]

theorem directionOf_sign (q : ℚ) (hq : q ≠ 0) :
    (if 0 < q then Direction.up else if q < 0 then Direction.down
      else Direction.neutral) =
    (if 0 < q then Direction.up else Direction.down) := by
  rcases lt_trichotomy 0 q with h | h | h
  · simp [h]
  · exact absurd h.symm hq
  · simp [lt_asymm h, h]

theorem fallback_ne_zero (a : ℚ) : (if a = 0 then (35 : ℚ) / 10 else a) ≠ 0 := by
  split_ifs with h
  · norm_num
  · exact h

/-- C8 counterexample: a stats record whose percent change is exactly
zero is classified up, not neutral: the zero is falsy, min and max are
absent, so the hard-coded default 3.5 replaces it before the sign test. -/
theorem C8_zero_change_counterexample :
    ({ id := some "m", city := none, state := none, zipCode := none,
       averagePrice := none, medianPrice := none, percentChange := some 0,
       saleData := some { lastUpdatedDate := none, averagePrice := none,
                          medianPrice := some 300000, minPrice := none,
                          maxPrice := none },
       historicalPrices := none } : MarketStats).percentChange = some 0 ∧
    (transformToMarketPriceData "m" "n"
      { id := some "m", city := none, state := none, zipCode := none,
        averagePrice := none, medianPrice := none, percentChange := some 0,
        saleData := some { lastUpdatedDate := none, averagePrice := none,
                           medianPrice := some 300000, minPrice := none,
                           maxPrice := none },
        historicalPrices := none }).changeDirection = Direction.up := by
  constructor
  · rfl
  · norm_num [transformToMarketPriceData, orVal, truthy]

/-- C8 (amended): the direction is computed from the sign of the
effective price change after the fallback chain (a truthy percentChange
is kept; a falsy one is replaced by the min/max range estimate or by the
default 3.5), so a nonzero percentChange yields up when positive and
down when negative, and the neutral branch is unreachable because the
fallback chain never leaves an exact zero. -/
theorem C8_direction_amended (mid mname : String) (stats : MarketStats) :
    ((transformToMarketPriceData mid mname stats).changeDirection ≠ Direction.neutral) ∧
    (∀ pc : ℚ, stats.percentChange = some pc → pc ≠ 0 →
      (transformToMarketPriceData mid mname stats).changeDirection =
        (if 0 < pc then Direction.up else Direction.down)) := by
  constructor
  · exact directionOf_ne_neutral _ (fallback_ne_zero _)
  · intro pc hpc hne
    have horval : orVal stats.percentChange 0 = pc := by
      rw [hpc]
      simp [orVal, hne]
    dsimp only [transformToMarketPriceData]
    have hpc0 : (pc = 0) = False := by simp [hne]
    rw [horval]
    simp only [hpc0, false_and, if_false]
    exact directionOf_sign pc hne

/-- C8 witness: a stats record with percentChange -2 is classified down
and is not neutral. -/
theorem C8_direction_witness :
    ((transformToMarketPriceData "m" "n"
      { id := some "m", city := none, state := none, zipCode := none,
        averagePrice := none, medianPrice := some 100, percentChange := some (-2),
        saleData := none, historicalPrices := none }).changeDirection ≠
      Direction.neutral) ∧
    (transformToMarketPriceData "m" "n"
      { id := some "m", city := none, state := none, zipCode := none,
        averagePrice := none, medianPrice := some 100, percentChange := some (-2),
        saleData := none, historicalPrices := none }).changeDirection =
      Direction.down := by
  have h := C8_direction_amended "m" "n"
    { id := some "m", city := none, state := none, zipCode := none,
      averagePrice := none, medianPrice := some 100, percentChange := some (-2),
      saleData := none, historicalPrices := none }
  refine ⟨h.1, ?_⟩
  have h2 := h.2 (-2) rfl (by norm_num)
  rw [if_neg (by norm_num)] at h2
  exact h2

/-- C9 counterexample: an unknown provider id falls through to the
default branch, which returns the Mock provider silently: the claim
expects a logged warning, but the warnings list is empty. -/
theorem C9_unknown_id_counterexample :
    (createProvider "postgres" true true).1 = ProviderKind.mock ∧
    (createProvider "postgres" true true).2 = [] := by
  decide

/-- C9 (amended): every id other than zillow-metrics and csv yields the
Mock provider without throwing; a warning is logged exactly for the
not-yet-implemented rentcast id, while unknown ids (and mock itself)
fall through the default branch silently. -/
theorem C9_fallback_amended (id : String) (zc cc : Bool)
    (h1 : id ≠ "zillow-metrics") (h2 : id ≠ "csv") :
    (createProvider id zc cc).1 = ProviderKind.mock ∧
    ((createProvider id zc cc).2 = [] ↔ id ≠ "rentcast") := by
  by_cases hr : id = "rentcast"
  · subst hr
    refine ⟨by simp [createProvider], ?_⟩
    simp [createProvider]
  · refine ⟨by simp [createProvider, h1, h2, hr], ?_⟩
    simp [createProvider, h1, h2, hr]

/-- C9 witness: the not-yet-implemented rentcast id returns the Mock
provider with a nonempty warnings list. -/
theorem C9_fallback_witness :
    (createProvider "rentcast" true true).1 = ProviderKind.mock ∧
    (createProvider "rentcast" true true).2 ≠ [] :=
  ⟨(C9_fallback_amended "rentcast" true true (by decide) (by decide)).1,
   fun hc =>
     ((C9_fallback_amended "rentcast" true true (by decide) (by decide)).2.mp hc) rfl⟩

end HousingData
